import Mathlib

/-!
Verification of the download/transcode backend in `src/app.py` (Flask + yt-dlp).
The stateless core — URL id extraction, cache-janitor sweep, ydl option
construction, artifact probing, filename sanitization and the two request
handlers — is embedded as executable Lean definitions, translated directly
from the Python source.  External effects (the HTTP body parser, the yt-dlp
engine call, filesystem existence checks and directory listings) enter the
handler models as explicit parameters, mirroring the exact control flow of
the source.
-/

set_option autoImplicit false

namespace YtBackend

/-! ### URL Identifier Extractor (`extract_video_id`, app.py lines 42-53)

Python applies `re.search` with three patterns in order:
  1. `(?:youtube\.com\/watch\?v=|youtu\.be\/)([^&\n?#]+)`
  2. `youtube\.com\/embed\/([^&\n?#]+)`
  3. `youtube\.com\/v\/([^&\n?#]+)`
`re.search` scans start positions left to right; at each position the
alternatives of the pattern are tried in order, each requiring its literal
prefix followed by a non-empty greedy run of characters not in the class
excluding ampersand, newline, question mark and hash. -/

/-- True for characters allowed inside a captured id: the regex class
excluding ampersand, newline, question mark and hash. -/
def idChar (c : Char) : Bool :=
  !(c == '&' || c == '\n' || c == '?' || c == '#')

/-- Literal-prefix matcher: if `p` is a prefix of `s`, return the remainder
of `s` after `p`; otherwise `none`. -/
def pmatch : List Char → List Char → Option (List Char)
  | [], s => some s
  | _ :: _, [] => none
  | p :: ps, c :: cs => if p = c then pmatch ps cs else none

/-- Try one regex alternative at the current position: match the literal
prefix `p`, then capture the greedy non-empty run of `idChar`s. -/
def tryAlt (p : List Char) (s : List Char) : Option (List Char) :=
  match pmatch p s with
  | none => none
  | some rest =>
    let run := rest.takeWhile idChar
    if run.isEmpty then none else some run

/-- Try the alternatives of one pattern, in order, at the current position. -/
def matchAt (alts : List (List Char)) (s : List Char) : Option (List Char) :=
  match alts with
  | [] => none
  | p :: ps =>
    match tryAlt p s with
    | some r => some r
    | none => matchAt ps s

/-- The scan of `re.search`: try the pattern at every start position, left to
right, returning the first successful capture. -/
def reSearch (alts : List (List Char)) : List Char → Option (List Char)
  | [] => none
  | c :: rest =>
    match matchAt alts (c :: rest) with
    | some r => some r
    | none => reSearch alts rest

/-- Literal prefix of the first pattern's first alternative. -/
def p_watch : List Char :=
  ['y', 'o', 'u', 't', 'u', 'b', 'e', '.', 'c', 'o', 'm', '/',
   'w', 'a', 't', 'c', 'h', '?', 'v', '=']

/-- Literal prefix of the first pattern's second alternative. -/
def p_short : List Char :=
  ['y', 'o', 'u', 't', 'u', '.', 'b', 'e', '/']

/-- Literal prefix of the second pattern. -/
def p_embed : List Char :=
  ['y', 'o', 'u', 't', 'u', 'b', 'e', '.', 'c', 'o', 'm', '/',
   'e', 'm', 'b', 'e', 'd', '/']

/-- Literal prefix of the third pattern. -/
def p_vpath : List Char :=
  ['y', 'o', 'u', 't', 'u', 'b', 'e', '.', 'c', 'o', 'm', '/', 'v', '/']

/-- Model of `extract_video_id` (app.py lines 42-53): the three patterns are
searched over the whole URL in order; the first pattern that matches anywhere
wins. -/
def extract_video_id (url : List Char) : Option (List Char) :=
  match reSearch [p_watch, p_short] url with
  | some r => some r
  | none =>
    match reSearch [p_embed] url with
    | some r => some r
    | none => reSearch [p_vpath] url

/-! ### Display-filename sanitization (app.py lines 212-214)

Python: `safe_title = "".join(c for c in title if c.isalnum() or c in
(' ', '-', '_')).rstrip()` then `safe_title = safe_title[:50]` and
`download_name = f"{safe_title}.{format_type}"`.  Note the order: `rstrip`
runs before the truncation to 50 characters. -/

/-- Python `str.isalnum`, modelled exactly for code points below 0x100
(ASCII digits and letters plus the Latin-1 letters, superscripts and vulgar
fractions); code points at or above 0x100 are not modelled and map to
`false`. -/
def pyIsAlnum (c : Char) : Bool :=
  let n := c.toNat
  (decide (48 ≤ n) && decide (n ≤ 57)) ||
  (decide (65 ≤ n) && decide (n ≤ 90)) ||
  (decide (97 ≤ n) && decide (n ≤ 122)) ||
  n == 0xAA || n == 0xB2 || n == 0xB3 || n == 0xB5 ||
  n == 0xB9 || n == 0xBA || n == 0xBC || n == 0xBD || n == 0xBE ||
  (decide (0xC0 ≤ n) && decide (n ≤ 0xFF) && n != 0xD7 && n != 0xF7)

/-- Python `str.isspace`, modelled exactly for code points below 0x100
(tab through carriage return, the separator controls 0x1C-0x1F, space,
next-line 0x85 and no-break space 0xA0). -/
def pyIsSpace (c : Char) : Bool :=
  let n := c.toNat
  (decide (9 ≤ n) && decide (n ≤ 13)) ||
  (decide (28 ≤ n) && decide (n ≤ 31)) ||
  n == 32 || n == 0x85 || n == 0xA0

/-- The filter of the generator expression: keep `c` when `c.isalnum()` or
`c in (' ', '-', '_')`. -/
def keepChar (c : Char) : Bool :=
  pyIsAlnum c || c == ' ' || c == '-' || c == '_'

/-- Python `str.rstrip()`: drop trailing whitespace characters. -/
def pyRstrip (l : List Char) : List Char :=
  (l.reverse.dropWhile pyIsSpace).reverse

/-- Model of the sanitized title (app.py lines 212-213): filter, then
`rstrip`, then truncate to the first 50 characters. -/
def safe_title (title : List Char) : List Char :=
  (pyRstrip (title.filter keepChar)).take 50

/-- Model of `download_name = f"{safe_title}.{format_type}"` (line 214). -/
def download_name (title : List Char) (format_type : String) : List Char :=
  safe_title title ++ '.' :: format_type.data

/-! ### Cache Directory Janitor (`cleanup_old_files`, app.py lines 30-40)

The directory state is a flat listing of entries (as `os.listdir` returns:
no recursion into subdirectories).  Each entry records whether it is a
regular file, its modification time, and whether `os.remove` on it would
raise.  The single `try` of the source wraps the whole loop, so any raised
per-file error aborts the remaining iterations; the `except` then logs and
returns normally. -/

/-- MAX_FILE_AGE = 3600 (app.py line 28). -/
def MAX_FILE_AGE : Int := 3600

/-- One entry of the cache directory listing. -/
structure FsEntry where
  name : String
  isfile : Bool
  mtime : Int
  removeFails : Bool
deriving DecidableEq, Repr

/-- The `for filename in os.listdir(...)` loop body (lines 33-38): delete a
regular file strictly older than `MAX_FILE_AGE`.  Returns the resulting
listing and whether an `os.remove` raised (which aborts the remaining
iterations, leaving the failing entry and everything after it untouched). -/
def cleanupLoop (now : Int) : List FsEntry → List FsEntry × Bool
  | [] => ([], false)
  | e :: rest =>
    if e.isfile && decide (now - e.mtime > MAX_FILE_AGE) then
      if e.removeFails then (e :: rest, true)
      else cleanupLoop now rest
    else
      let p := cleanupLoop now rest
      (e :: p.1, p.2)

/-- Model of `cleanup_old_files` (lines 30-40).  `listOk = false` models
`os.listdir` raising, in which case the `except` catches it and nothing is
deleted.  A per-file error is likewise caught by the same `except`; in every
case the function returns normally (it never raises to its caller). -/
def cleanup_old_files (listOk : Bool) (now : Int) (fs : List FsEntry) : List FsEntry :=
  if listOk then (cleanupLoop now fs).1 else fs

/-! ### ydl option construction (app.py lines 136-170) -/

/-- The cache directory (line 26); the current-working-directory prefix of
`os.path.join(os.getcwd(), 'downloads')` is elided as it plays no role. -/
def DOWNLOAD_FOLDER : String := "downloads"

/-- Quality-tier format-selector construction (lines 156-162): '720' and
'480' are recognized explicitly and everything else falls into the 360
branch. -/
def format_selector (quality : String) : String :=
  if quality = "720" then "best[height<=720][ext=mp4]/best[height<=720]/best"
  else if quality = "480" then "best[height<=480][ext=mp4]/best[height<=480]/best"
  else "best[height<=360][ext=mp4]/best[height<=360]/best"

/-- The fields of the `ydl_opts` dictionaries that the core logic sets
(lines 140-151 and 164-170): the format selector, the output template, and
the audio branch's FFmpegExtractAudio post-processor with its preferred
quality. -/
structure YdlOpts where
  format : String
  outtmpl : String
  hasMp3Postprocessor : Bool
  preferredquality : Option String
deriving DecidableEq, Repr

/-- Model of the `if format_type == 'mp3': ... else: ...` option
construction (lines 136-170). -/
def build_ydl_opts (output_template format_type quality : String) : YdlOpts :=
  if format_type = "mp3" then
    { format := "bestaudio/best"
      outtmpl := output_template
      hasMp3Postprocessor := true
      preferredquality := some quality }
  else
    { format := format_selector quality
      outtmpl := output_template
      hasMp3Postprocessor := false
      preferredquality := none }

/-- The response mimetype (line 223): `'audio/mpeg' if format_type == 'mp3'
else 'video/mp4'`. -/
def mimetype_for (format_type : String) : String :=
  if format_type = "mp3" then "audio/mpeg" else "video/mp4"

/-! ### Artifact probing (app.py lines 182-196) -/

/-- The fixed candidate extension list (line 183), in priority order. -/
def possible_extensions : List String := ["mp3", "mp4", "m4a", "webm", "mkv"]

/-- Model of the probe loop (lines 185-196): the first extension whose file
exists wins; failing that, the bare extension-less template path is accepted
when it exists. -/
def find_downloaded_file (fileExists : String → Bool) (output_template : String) :
    Option String :=
  match possible_extensions.find? (fun e => fileExists (output_template ++ "." ++ e)) with
  | some e => some (output_template ++ "." ++ e)
  | none => if fileExists output_template then some output_template else none

/-! ### Request handler models (app.py lines 68-111 and 113-245)

Both handlers are one big `try`: any exception raised inside (a failing
body parse, a `None` body, or a raising engine call) lands in the `except`
and becomes a 500 `success:false` envelope.  The body is therefore modelled
as `Except String _` — the error case stands for "accessing `request.json`
or its fields raised, with this exception text".  The engine call is a
parameter `Except String EngineInfo`; an `engineCalled` flag in the outcome
records whether control flow reached the `with yt_dlp.YoutubeDL(...)`
block. -/

/-- The subset of the yt-dlp metadata dictionary the handlers read; absent
dictionary keys are `none` (Python `info.get(...)` gives `None`). -/
structure EngineInfo where
  title : Option String
  thumbnail : Option String
  duration : Option Nat
  uploader : Option String
deriving DecidableEq, Repr

/-- Parsed body of `/api/info`: the `url` field if present. -/
structure InfoBody where
  url : Option String
deriving DecidableEq, Repr

/-- Parsed body of `/api/download`.  A `none` field means the key is absent
(the `data.get(key, default)` default applies). -/
structure DlBody where
  url : Option String
  format : Option String
  quality : Option String
deriving DecidableEq, Repr

/-- Response of `/api/info`: either the success payload (line 94-103) or a
`success:false` envelope with its HTTP status. -/
inductive InfoResp where
  | success (id : String) (title thumbnail : Option String)
      (duration : Option Nat) (channel : Option String)
  | failure (status : Nat) (error : String)
deriving DecidableEq, Repr

/-- HTTP status of an `/api/info` response (a Flask success body defaults to
200). -/
def InfoResp.status : InfoResp → Nat
  | .success _ _ _ _ _ => 200
  | .failure s _ => s

/-- The `success` flag of the JSON envelope. -/
def InfoResp.isSuccess : InfoResp → Bool
  | .success _ _ _ _ _ => true
  | .failure _ _ => false

/-- Outcome of one `/api/info` request: the response plus whether the
yt-dlp engine was invoked. -/
structure InfoOutcome where
  resp : InfoResp
  engineCalled : Bool
deriving DecidableEq, Repr

/-- Model of `get_video_info` (app.py lines 68-111).  Python truthiness:
`if not url` rejects both an absent url and the empty string. -/
def get_video_info (body : Except String InfoBody)
    (engine : Except String EngineInfo) : InfoOutcome :=
  match body with
  | .error e => ⟨.failure 500 ("Failed to get video info: " ++ e), false⟩
  | .ok b =>
    match b.url with
    | none => ⟨.failure 400 "URL required", false⟩
    | some u =>
      if u = "" then ⟨.failure 400 "URL required", false⟩
      else
        match extract_video_id u.data with
        | none => ⟨.failure 400 "Invalid YouTube URL", false⟩
        | some vid =>
          match engine with
          | .error e => ⟨.failure 500 ("Failed to get video info: " ++ e), true⟩
          | .ok info =>
            ⟨.success (String.mk vid) info.title info.thumbnail
                info.duration info.uploader, true⟩

/-- Response of `/api/download`: a streamed file (path, attachment name,
mimetype), a plain `success:false` envelope, or the artifact-missing
envelope with its debug payload (expected path and directory listing,
lines 202-209). -/
inductive DlResp where
  | fileResp (path : String) (downloadName : List Char) (mimetype : String)
  | failure (status : Nat) (error : String)
  | failureDebug (status : Nat) (error : String) (expected : String)
      (files : List String)
deriving DecidableEq, Repr

/-- HTTP status of an `/api/download` response. -/
def DlResp.status : DlResp → Nat
  | .fileResp _ _ _ => 200
  | .failure s _ => s
  | .failureDebug s _ _ _ => s

/-- Whether the response is a success (a streamed file). -/
def DlResp.isSuccess : DlResp → Bool
  | .fileResp _ _ _ => true
  | .failure _ _ => false
  | .failureDebug _ _ _ _ => false

/-- Outcome of one `/api/download` request: the response, whether the
engine was invoked, and the `ydl_opts` passed to it when it was. -/
structure DlOutcome where
  resp : DlResp
  engineCalled : Bool
  optsUsed : Option YdlOpts
deriving DecidableEq, Repr

/-- Model of `download_video` (app.py lines 113-245).  The MD5 hash of
line 134 is time-salted and opaque to every property here, so the computed
stem enters as the parameter `filename_hash`; `fileExists` and `dirFiles`
stand for `os.path.exists` and `os.listdir` on the cache directory after
the engine call. -/
def download_video (body : Except String DlBody)
    (engine : Except String EngineInfo)
    (fileExists : String → Bool) (dirFiles : List String)
    (filename_hash : String) : DlOutcome :=
  match body with
  | .error e => ⟨.failure 500 ("Download failed: " ++ e), false, none⟩
  | .ok b =>
    let format_type := b.format.getD ("mp4")
    let quality := b.quality.getD ("720")
    match b.url with
    | none => ⟨.failure 400 "URL required", false, none⟩
    | some u =>
      if u = "" then ⟨.failure 400 "URL required", false, none⟩
      else
        match extract_video_id u.data with
        | none => ⟨.failure 400 "Invalid YouTube URL", false, none⟩
        | some _ =>
          let output_template := DOWNLOAD_FOLDER ++ "/" ++ filename_hash
          let opts := build_ydl_opts output_template format_type quality
          match engine with
          | .error e => ⟨.failure 500 ("Download failed: " ++ e), true, some opts⟩
          | .ok info =>
            let title := info.title.getD ("video")
            match find_downloaded_file fileExists output_template with
            | none =>
              ⟨.failureDebug 500 "Download completed but file not found"
                  output_template dirFiles, true, some opts⟩
            | some f =>
              ⟨.fileResp f (download_name title.data format_type)
                  (mimetype_for format_type), true, some opts⟩

/-! ### Supported URL shapes

The three URL shapes named by the specification, written as the scheme/host
part, the pattern's literal prefix, the id and a trailing part. -/

/-- Scheme and host of a full desktop URL. -/
def hostPre : List Char :=
  ['h', 't', 't', 'p', 's', ':', '/', '/', 'w', 'w', 'w', '.']

/-- Scheme part of a short-link URL. -/
def schemePre : List Char :=
  ['h', 't', 't', 'p', 's', ':', '/', '/']

/-- Watch-page URL shape: `https://www.youtube.com/watch?v=<id><suffix>`. -/
def watchUrl (id suffix : List Char) : List Char :=
  hostPre ++ (p_watch ++ (id ++ suffix))

/-- Short-link URL shape: `https://youtu.be/<id><suffix>`. -/
def shortUrl (id suffix : List Char) : List Char :=
  schemePre ++ (p_short ++ (id ++ suffix))

/-- Embed URL shape: `https://www.youtube.com/embed/<id><suffix>`. -/
def embedUrl (id suffix : List Char) : List Char :=
  hostPre ++ (p_embed ++ (id ++ suffix))

/-! ### Conservative mismatch checks for the scan proofs -/

/-- Conservative check: matching the literal `p` against the concrete text
`t` fails at a position strictly inside `t`, so the outcome does not depend
on whatever follows `t`. -/
def failsInside : List Char → List Char → Bool
  | _ :: _, [] => false
  | [], _ => false
  | p :: ps, c :: cs => if p = c then failsInside ps cs else true

/-- Every alternative fails strictly inside the concrete text `t`. -/
def allFailInside (alts : List (List Char)) (t : List Char) : Bool :=
  alts.all (fun p => failsInside p t)

/-- At every start position inside `base`, the pattern fails strictly within
the concrete text, so the scan passes through `base` entirely. -/
def scanFails (alts : List (List Char)) : List Char → Bool
  | [] => true
  | c :: rest => allFailInside alts (c :: rest) && scanFails alts rest

/-! ### Concrete instances used by witnesses and counterexamples -/

/-- Concrete id for the C4 witness. -/
def c4Id : List Char := ['d', 'Q', 'w', '4', 'w', '9', 'W', 'g', 'X', 'c', 'Q']

/-- Concrete trailing portion for the C4 witness. -/
def c4Suffix : List Char := ['?', 's', 'i', '=', 'x']

/-- The character class `[A-Za-z0-9 _-]` asserted by the specification's
sanitization property; stated only for comparison with the source's actual
keep-predicate `keepChar`. -/
def c1ClaimedCharClass (c : Char) : Bool :=
  (decide ('A' ≤ c) && decide (c ≤ 'Z')) ||
  (decide ('a' ≤ c) && decide (c ≤ 'z')) ||
  (decide ('0' ≤ c) && decide (c ≤ '9')) ||
  c == ' ' || c == '-' || c == '_'

/-- A 51-character title: a non-ASCII letter, 48 ASCII letters, a space and
a final letter. -/
def c1CexTitle : List Char := 'é' :: (List.replicate 48 'a' ++ [' ', 'b'])

/-- Concrete sweep states for the C3 witness. -/
def c3Pre : List FsEntry := [⟨"done.mp4", true, 0, false⟩, ⟨"keep.mp4", true, 9000, false⟩]

/-- The entry whose deletion raises in the C3 witness. -/
def c3Bad : FsEntry := ⟨"stuck.mp4", true, 0, true⟩

/-- Entries listed after the failing one in the C3 witness. -/
def c3Post : List FsEntry := [⟨"orphan.mp4", true, 0, false⟩]

/-- Concrete directory state for the C6 witness: an expired regular file,
a fresh regular file, and a subdirectory entry older than the TTL. -/
def c6Fs : List FsEntry :=
  [⟨"old.mp4", true, 0, false⟩, ⟨"young.mp4", true, 9000, false⟩, ⟨"sub", false, 0, false⟩]

/-! ### Helper lemmas about the regex-scan model -/

theorem takeWhile_append_eq_self {p : Char → Bool} (id suffix : List Char)
    (hid : ∀ c ∈ id, p c = true)
    (hsuf : suffix = [] ∨ ∃ c cs, suffix = c :: cs ∧ p c = false) :
    (id ++ suffix).takeWhile p = id := by
  induction id with
  | nil =>
    rcases hsuf with h | ⟨c, cs, rfl, hc⟩
    · simp [h]
    · simp [hc]
  | cons a as ih =>
    have ha := hid a (by simp)
    simp only [List.cons_append, List.takeWhile_cons, ha, if_true]
    rw [ih (fun c hc => hid c (by simp [hc]))]

theorem pmatch_self_append (p rest : List Char) : pmatch p (p ++ rest) = some rest := by
  induction p with
  | nil => rfl
  | cons a as ih => simp [pmatch, ih]

theorem failsInside_pmatch {p t : List Char} (h : failsInside p t = true)
    (tail : List Char) : pmatch p (t ++ tail) = none := by
  induction p generalizing t with
  | nil => cases t <;> simp [failsInside] at h
  | cons a as ih =>
    cases t with
    | nil => simp [failsInside] at h
    | cons c cs =>
      by_cases hac : a = c
      · subst hac
        simp only [failsInside, if_pos rfl] at h
        simpa [pmatch] using ih h
      · simp [pmatch, hac]

theorem allFailInside_matchAt {alts : List (List Char)} {t : List Char}
    (h : allFailInside alts t = true) (tail : List Char) :
    matchAt alts (t ++ tail) = none := by
  induction alts with
  | nil => rfl
  | cons p ps ih =>
    simp only [allFailInside, List.all_cons, Bool.and_eq_true] at h
    simp [matchAt, tryAlt, failsInside_pmatch h.1, ih h.2]

theorem scanFails_reSearch {alts : List (List Char)} {base : List Char}
    (h : scanFails alts base = true) (tail : List Char) :
    reSearch alts (base ++ tail) = reSearch alts tail := by
  induction base with
  | nil => rfl
  | cons c rest ih =>
    simp only [scanFails, Bool.and_eq_true] at h
    have h1 := allFailInside_matchAt h.1 tail
    simp only [List.cons_append] at h1 ⊢
    simp [reSearch, h1, ih h.2]

theorem reSearch_head_some {alts : List (List Char)} {s r : List Char}
    (hne : s ≠ []) (h : matchAt alts s = some r) : reSearch alts s = some r := by
  cases s with
  | nil => exact absurd rfl hne
  | cons c cs => simp [reSearch, h]

theorem matchAt_first_alt {p : List Char} (alts' : List (List Char))
    {id suffix : List Char}
    (hid : ∀ c ∈ id, idChar c = true) (hne : id ≠ [])
    (hsuf : suffix = [] ∨ ∃ c cs, suffix = c :: cs ∧ idChar c = false) :
    matchAt (p :: alts') (p ++ (id ++ suffix)) = some id := by
  have hrun : (id ++ suffix).takeWhile idChar = id :=
    takeWhile_append_eq_self id suffix hid hsuf
  have hemp : id.isEmpty = false := by
    cases id with
    | nil => exact absurd rfl hne
    | cons a as => rfl
  simp [matchAt, tryAlt, pmatch_self_append, hrun, hemp]

theorem matchAt_second_alt {p₁ p₂ : List Char} {id suffix : List Char}
    (hfail : failsInside p₁ p₂ = true)
    (hid : ∀ c ∈ id, idChar c = true) (hne : id ≠ [])
    (hsuf : suffix = [] ∨ ∃ c cs, suffix = c :: cs ∧ idChar c = false) :
    matchAt [p₁, p₂] (p₂ ++ (id ++ suffix)) = some id := by
  have h1 : pmatch p₁ (p₂ ++ (id ++ suffix)) = none := failsInside_pmatch hfail _
  have h2 := matchAt_first_alt ([] : List (List Char)) hid hne hsuf (p := p₂)
  simp only [matchAt, tryAlt, h1] at h2 ⊢
  exact h2

/-! ### Claim C4 -/

/-- Claim C4, as stated, is false: the three patterns are searched over the
whole URL in priority order, so for an embed-shape URL whose trailing
query portion (which the claim says must be excluded) contains a
`youtu.be/` link, the first pattern captures from the query portion instead
of returning the embed id.  Concretely,
`https://www.youtube.com/embed/abc?u=youtu.be/zzz` yields `zzz`, not the
embed id `abc`. -/
theorem c4_counterexample :
    extract_video_id (("https://www.youtube.com/embed/abc?u=youtu.be/zzz").data)
        = some (['z', 'z', 'z'])
    ∧ extract_video_id (("https://www.youtube.com/embed/abc?u=youtu.be/zzz").data)
        ≠ some (['a', 'b', 'c']) := by decide

/-- Claim C4 (amended): for a watch-page or short-link URL whose id is a
non-empty run of characters outside the terminator set (ampersand, newline,
question mark, hash) and whose trailing portion is empty or starts with a
terminator, `extract_video_id` returns exactly the id; for an embed URL the
same holds provided the id-and-trailing portion contains no match of the
higher-priority watch/short pattern (which is searched over the whole URL
first). -/
theorem c4_amended_extractId_shapes :
    ∀ (id suffix : List Char), id ≠ [] → (∀ c ∈ id, idChar c = true) →
      (suffix = [] ∨ ∃ c cs, suffix = c :: cs ∧ idChar c = false) →
      extract_video_id (watchUrl id suffix) = some id
      ∧ extract_video_id (shortUrl id suffix) = some id
      ∧ (reSearch [p_watch, p_short] (id ++ suffix) = none →
          extract_video_id (embedUrl id suffix) = some id) := by
  intro id suffix hne hid hsuf
  refine ⟨?_, ?_, ?_⟩
  · have h1 : reSearch [p_watch, p_short] (watchUrl id suffix) = some id := by
      simp only [watchUrl]
      rw [scanFails_reSearch (by decide)]
      exact reSearch_head_some (by simp [p_watch])
        (matchAt_first_alt [p_short] hid hne hsuf)
    simp [extract_video_id, h1]
  · have h1 : reSearch [p_watch, p_short] (shortUrl id suffix) = some id := by
      simp only [shortUrl]
      rw [scanFails_reSearch (by decide)]
      exact reSearch_head_some (by simp [p_short])
        (matchAt_second_alt (by decide) hid hne hsuf)
    simp [extract_video_id, h1]
  · intro hnone
    have h1 : reSearch [p_watch, p_short] (embedUrl id suffix) = none := by
      simp only [embedUrl]
      rw [← List.append_assoc, scanFails_reSearch (by decide)]
      exact hnone
    have h2 : reSearch [p_embed] (embedUrl id suffix) = some id := by
      simp only [embedUrl]
      rw [scanFails_reSearch (by decide)]
      exact reSearch_head_some (by simp [p_embed])
        (matchAt_first_alt [] hid hne hsuf)
    simp [extract_video_id, h1, h2]

theorem c4_witness :
    extract_video_id (watchUrl c4Id c4Suffix) = some c4Id
    ∧ extract_video_id (shortUrl c4Id c4Suffix) = some c4Id
    ∧ extract_video_id (embedUrl c4Id c4Suffix) = some c4Id := by
  have h := c4_amended_extractId_shapes c4Id c4Suffix (by decide) (by decide)
    (Or.inr ⟨'?', ['s', 'i', '=', 'x'], rfl, by decide⟩)
  exact ⟨h.1, h.2.1, h.2.2 (by decide)⟩

/-! ### More helper lemmas (lists) -/

theorem mem_take_mem {α : Type} {c : α} : ∀ {n : Nat} {l : List α}, c ∈ l.take n → c ∈ l := by
  intro n l
  induction l generalizing n with
  | nil => simp
  | cons a as ih =>
    cases n with
    | zero => simp
    | succ m =>
      simp only [List.take_succ_cons, List.mem_cons]
      rintro (rfl | h)
      · exact Or.inl rfl
      · exact Or.inr (ih h)

theorem mem_dropWhile_mem {α : Type} {p : α → Bool} {c : α} :
    ∀ {l : List α}, c ∈ l.dropWhile p → c ∈ l := by
  intro l
  induction l with
  | nil => simp
  | cons a as ih =>
    by_cases h : p a = true
    · rw [List.dropWhile_cons_of_pos h]
      intro hm
      exact List.mem_cons_of_mem _ (ih hm)
    · rw [List.dropWhile_cons_of_neg (by simpa using h)]
      exact id

theorem find?_append_cons {α : Type} (p : α → Bool) (pre : List α) (e : α) (post : List α)
    (hpre : ∀ x ∈ pre, p x = false) (he : p e = true) :
    (pre ++ e :: post).find? p = some e := by
  induction pre with
  | nil => simp [List.find?_cons, he]
  | cons a as ih =>
    have ha := hpre a (by simp)
    simp [List.find?_cons, ha, ih (fun x hx => hpre x (by simp [hx]))]

theorem find?_eq_none_of_all {α : Type} (p : α → Bool) (l : List α)
    (h : ∀ x ∈ l, p x = false) : l.find? p = none := by
  induction l with
  | nil => rfl
  | cons a as ih =>
    have ha := h a (by simp)
    simp [List.find?_cons, ha, ih (fun x hx => h x (by simp [hx]))]

theorem cleanup_old_files_listOk (now : Int) (fs : List FsEntry) :
    cleanup_old_files true now fs = (cleanupLoop now fs).1 := rfl

theorem cleanupLoop_cons_removed {now : Int} {e : FsEntry} {rest : List FsEntry}
    (hc : (e.isfile && decide (now - e.mtime > MAX_FILE_AGE)) = true)
    (hr : e.removeFails = false) :
    cleanupLoop now (e :: rest) = cleanupLoop now rest := by
  simp only [cleanupLoop]
  rw [if_pos hc, if_neg (by simp [hr])]

theorem cleanupLoop_cons_raises {now : Int} {e : FsEntry} {rest : List FsEntry}
    (hc : (e.isfile && decide (now - e.mtime > MAX_FILE_AGE)) = true)
    (hr : e.removeFails = true) :
    cleanupLoop now (e :: rest) = (e :: rest, true) := by
  simp only [cleanupLoop]
  rw [if_pos hc, if_pos hr]

theorem cleanupLoop_cons_kept {now : Int} {e : FsEntry} {rest : List FsEntry}
    (hc : (e.isfile && decide (now - e.mtime > MAX_FILE_AGE)) = false) :
    cleanupLoop now (e :: rest)
      = (e :: (cleanupLoop now rest).1, (cleanupLoop now rest).2) := by
  simp only [cleanupLoop]
  rw [if_neg (by simp [hc])]

/-! ### Claim C1 -/

/-- Claim C1, as stated, is false on two counts at one concrete title.
Python's `isalnum` is Unicode-aware, so the kept character 'é' is outside
the claimed class `[A-Za-z0-9 _-]`; and since `rstrip` runs before the
truncation to 50 characters, truncation can re-expose trailing whitespace:
for this title the 50th kept character is a space and the letter after it
is cut off, so the name before the extension ends in a space. -/
theorem c1_counterexample :
    (∃ c ∈ safe_title c1CexTitle, c1ClaimedCharClass c = false)
    ∧ (safe_title c1CexTitle).getLast? = some ' '
    ∧ (safe_title c1CexTitle).length = 50 := by decide

/-- Claim C1 (amended): every character of the sanitized display name
satisfies the source's keep-predicate — Python `isalnum` (which admits
non-ASCII alphanumerics) or space, hyphen, underscore; the name before the
extension has at most 50 characters; and the display filename is exactly
that name followed by a dot and the requested format.  No bound on trailing
whitespace survives truncation, since `rstrip` runs first. -/
theorem c1_amended_sanitizer :
    ∀ (title : List Char) (fmt : String),
      (safe_title title).all keepChar = true
      ∧ (safe_title title).length ≤ 50
      ∧ download_name title fmt = safe_title title ++ ('.' :: fmt.data) := by
  intro title fmt
  refine ⟨?_, ?_, rfl⟩
  · rw [List.all_eq_true]
    intro c hc
    have h1 : c ∈ pyRstrip (title.filter keepChar) := mem_take_mem hc
    have h2 : c ∈ title.filter keepChar := by
      rw [pyRstrip, List.mem_reverse] at h1
      exact List.mem_reverse.1 (mem_dropWhile_mem h1)
    exact (List.mem_filter.1 h2).2
  · rw [safe_title, List.length_take]
    exact Nat.min_le_left _ _

/-! ### Claim C2 -/

/-- Claim C2, as stated, is false: when the engine's metadata dictionary
has no title, `info.get('title')` is `None` and the handler still returns a
`success:true` envelope whose `title` field is null. -/
theorem c2_counterexample :
    get_video_info (.ok ⟨some ("https://youtu.be/abc")⟩) (.ok ⟨none, none, none, none⟩)
      = ⟨.success ("abc") none none none none, true⟩
    ∧ (get_video_info (.ok ⟨some ("https://youtu.be/abc")⟩)
          (.ok ⟨none, none, none, none⟩)).resp.isSuccess = true := by decide

/-- Claim C2 (amended): every engine metadata result that does not raise —
including one with no title at all — is returned as a `success:true`
envelope whose fields, the title included, simply mirror the engine's
optional fields (absent maps to null); a missing title is not treated as an
error. -/
theorem c2_amended_success_mirrors_engine :
    ∀ (u : String) (vid : List Char) (m : EngineInfo),
      u ≠ "" → extract_video_id u.data = some vid →
      get_video_info (.ok ⟨some u⟩) (.ok m)
        = ⟨.success (String.mk vid) m.title m.thumbnail m.duration m.uploader, true⟩ := by
  intro u vid m hu hx
  simp [get_video_info, hu, hx]

theorem c2_witness :
    get_video_info (.ok ⟨some ("https://youtu.be/xyz")⟩)
        (.ok ⟨some ("A Title"), some ("thumb"), some 10, some ("chan")⟩)
      = ⟨.success (String.mk ['x', 'y', 'z']) (some ("A Title")) (some ("thumb"))
          (some 10) (some ("chan")), true⟩ :=
  c2_amended_success_mirrors_engine ("https://youtu.be/xyz") ['x', 'y', 'z']
    ⟨some ("A Title"), some ("thumb"), some 10, some ("chan")⟩ (by decide) (by decide)

/-! ### Claim C3 -/

/-- Claim C3, as stated, is false: the single `try` wraps the whole listing
loop, so a raising `os.remove` aborts the remaining files.  Here `a.mp4`
and `b.mp4` are both regular files far older than the TTL; deleting `a.mp4`
raises, and `b.mp4` — deletable and due — survives the sweep, so the sweep
did not continue with the remaining listed files. -/
theorem c3_counterexample :
    cleanup_old_files true 10000
        [⟨"a.mp4", true, 0, true⟩, ⟨"b.mp4", true, 0, false⟩]
      = [⟨"a.mp4", true, 0, true⟩, ⟨"b.mp4", true, 0, false⟩]
    ∧ ((10000 : Int) - 0 > MAX_FILE_AGE) := by decide

/-- Claim C3 (amended): a per-file deletion error is caught and logged but
aborts the remainder of the sweep — files listed before the failing one are
swept normally, while the failing file and every file after it are left
untouched; a directory-listing failure aborts the sweep with no deletions;
in both cases the sweep returns normally to its caller (the model is a
total function: the `except` swallows every error). -/
theorem c3_amended_error_aborts_remainder :
    (∀ (now : Int) (pre : List FsEntry) (e : FsEntry) (post : List FsEntry),
        (∀ f ∈ pre, f.removeFails = false) →
        e.isfile = true → now - e.mtime > MAX_FILE_AGE → e.removeFails = true →
        cleanup_old_files true now (pre ++ e :: post)
          = pre.filter (fun f => !(f.isfile && decide (now - f.mtime > MAX_FILE_AGE)))
              ++ e :: post)
    ∧ (∀ (now : Int) (fs : List FsEntry), cleanup_old_files false now fs = fs) := by
  constructor
  · intro now pre e post
    induction pre with
    | nil =>
      intro _ hf hold hrf
      rw [cleanup_old_files_listOk]
      simp [cleanupLoop, hf, hrf, decide_eq_true hold]
    | cons a as ih =>
      intro hpre hf hold hrf
      have ha := hpre a (by simp)
      have has : ∀ f ∈ as, f.removeFails = false := fun f hf2 => hpre f (by simp [hf2])
      have ih2 := ih has hf hold hrf
      rw [cleanup_old_files_listOk] at ih2 ⊢
      by_cases hcond : (a.isfile && decide (now - a.mtime > MAX_FILE_AGE)) = true
      · rw [List.cons_append, cleanupLoop_cons_removed hcond ha, ih2, List.filter_cons]
        simp [hcond]
      · have hcond' : (a.isfile && decide (now - a.mtime > MAX_FILE_AGE)) = false :=
          Bool.eq_false_iff.mpr hcond
        rw [List.cons_append, cleanupLoop_cons_kept hcond', List.filter_cons]
        simp [hcond', ih2]
  · intro now fs
    rfl

theorem c3_witness :
    cleanup_old_files true 10000 (c3Pre ++ c3Bad :: c3Post)
      = [⟨"keep.mp4", true, 9000, false⟩] ++ c3Bad :: c3Post
    ∧ cleanup_old_files false 10000 (c3Pre ++ c3Bad :: c3Post) = c3Pre ++ c3Bad :: c3Post := by
  refine ⟨?_, c3_amended_error_aborts_remainder.2 10000 _⟩
  rw [c3_amended_error_aborts_remainder.1 10000 c3Pre c3Bad c3Post (by decide)
      (by decide) (by decide) (by decide)]
  decide

/-! ### Claim C5 -/

/-- Claim C5: for a URL matched by none of the extractor patterns, both
handlers answer 400 with `success:false` and control flow never reaches the
engine invocation. -/
theorem c5_invalid_url_rejected_without_engine :
    ∀ (u : String) (engI engD : Except String EngineInfo) (fmt q : Option String)
      (ex : String → Bool) (files : List String) (stem : String),
      extract_video_id u.data = none →
      (get_video_info (.ok ⟨some u⟩) engI).resp.status = 400
      ∧ (get_video_info (.ok ⟨some u⟩) engI).resp.isSuccess = false
      ∧ (get_video_info (.ok ⟨some u⟩) engI).engineCalled = false
      ∧ (download_video (.ok ⟨some u, fmt, q⟩) engD ex files stem).resp.status = 400
      ∧ (download_video (.ok ⟨some u, fmt, q⟩) engD ex files stem).resp.isSuccess = false
      ∧ (download_video (.ok ⟨some u, fmt, q⟩) engD ex files stem).engineCalled = false := by
  intro u engI engD fmt q ex files stem hx
  by_cases hu : u = ""
  · subst hu
    exact ⟨rfl, rfl, rfl, rfl, rfl, rfl⟩
  · refine ⟨?_, ?_, ?_, ?_, ?_, ?_⟩ <;>
      simp [get_video_info, download_video, hu, hx, InfoResp.status, InfoResp.isSuccess,
        DlResp.status, DlResp.isSuccess]

theorem c5_witness :
    (get_video_info (.ok ⟨some ("not a url")⟩) (.ok ⟨none, none, none, none⟩)).resp.status = 400
    ∧ (get_video_info (.ok ⟨some ("not a url")⟩)
        (.ok ⟨none, none, none, none⟩)).resp.isSuccess = false
    ∧ (get_video_info (.ok ⟨some ("not a url")⟩)
        (.ok ⟨none, none, none, none⟩)).engineCalled = false
    ∧ (download_video (.ok ⟨some ("not a url"), none, none⟩) (.ok ⟨none, none, none, none⟩)
        (fun _ => false) [] ("h")).resp.status = 400
    ∧ (download_video (.ok ⟨some ("not a url"), none, none⟩) (.ok ⟨none, none, none, none⟩)
        (fun _ => false) [] ("h")).resp.isSuccess = false
    ∧ (download_video (.ok ⟨some ("not a url"), none, none⟩) (.ok ⟨none, none, none, none⟩)
        (fun _ => false) [] ("h")).engineCalled = false :=
  c5_invalid_url_rejected_without_engine ("not a url") (.ok ⟨none, none, none, none⟩)
    (.ok ⟨none, none, none, none⟩) none none (fun _ => false) [] ("h") (by decide)

/-! ### Claim C6 -/

/-- Claim C6: on a sweep in which no per-file deletion raises, a regular
file directly under the cache directory is deleted exactly when its age
strictly exceeds the 3600-second TTL; younger files and entries that are
not regular files are kept.  (The listing is flat, as `os.listdir` is: the
model never descends into subdirectories — a subdirectory is just a
non-regular entry, kept whole.) -/
theorem c6_sweep_ttl_filter :
    MAX_FILE_AGE = 3600
    ∧ ∀ (now : Int) (fs : List FsEntry),
        (∀ e ∈ fs, e.removeFails = false) →
        cleanup_old_files true now fs
          = fs.filter (fun e => !(e.isfile && decide (now - e.mtime > MAX_FILE_AGE))) := by
  refine ⟨rfl, ?_⟩
  intro now fs
  induction fs with
  | nil =>
    intro _
    rfl
  | cons a as ih =>
    intro h
    have ha := h a (by simp)
    have has : ∀ e ∈ as, e.removeFails = false := fun e he => h e (by simp [he])
    have ih2 := ih has
    rw [cleanup_old_files_listOk] at ih2 ⊢
    by_cases hcond : (a.isfile && decide (now - a.mtime > MAX_FILE_AGE)) = true
    · rw [cleanupLoop_cons_removed hcond ha, ih2, List.filter_cons]
      simp [hcond]
    · have hcond' : (a.isfile && decide (now - a.mtime > MAX_FILE_AGE)) = false :=
        Bool.eq_false_iff.mpr hcond
      rw [cleanupLoop_cons_kept hcond', List.filter_cons]
      simp [hcond', ih2]

theorem c6_witness :
    cleanup_old_files true 10000 c6Fs
      = [⟨"young.mp4", true, 9000, false⟩, ⟨"sub", false, 0, false⟩] := by
  rw [c6_sweep_ttl_filter.2 10000 c6Fs (by decide)]
  decide

/-! ### Claim C7 -/

/-- Claim C7: for each video quality tier among 720, 480 and 360, the
format selector handed to the engine is the three-level fallback — an
mp4-container stream capped at the tier's height, then best at or below the
tier's height, then unconditional best. -/
theorem c7_three_level_fallback :
    ∀ (tmpl fmt : String), fmt ≠ "mp3" →
      (build_ydl_opts tmpl fmt ("720")).format
          = "best[height<=720][ext=mp4]" ++ "/" ++ "best[height<=720]" ++ "/" ++ "best"
      ∧ (build_ydl_opts tmpl fmt ("480")).format
          = "best[height<=480][ext=mp4]" ++ "/" ++ "best[height<=480]" ++ "/" ++ "best"
      ∧ (build_ydl_opts tmpl fmt ("360")).format
          = "best[height<=360][ext=mp4]" ++ "/" ++ "best[height<=360]" ++ "/" ++ "best" := by
  intro tmpl fmt h
  refine ⟨?_, ?_, ?_⟩ <;> simp [build_ydl_opts, h, format_selector]

theorem c7_witness :
    (build_ydl_opts ("downloads/abcd1234") ("mp4") ("720")).format
        = "best[height<=720][ext=mp4]" ++ "/" ++ "best[height<=720]" ++ "/" ++ "best"
    ∧ (build_ydl_opts ("downloads/abcd1234") ("mp4") ("480")).format
        = "best[height<=480][ext=mp4]" ++ "/" ++ "best[height<=480]" ++ "/" ++ "best"
    ∧ (build_ydl_opts ("downloads/abcd1234") ("mp4") ("360")).format
        = "best[height<=360][ext=mp4]" ++ "/" ++ "best[height<=360]" ++ "/" ++ "best" :=
  c7_three_level_fallback ("downloads/abcd1234") ("mp4") (by decide)

/-! ### Claim C8 -/

/-- Claim C8: after a successful engine call, the candidate extensions are
probed in the fixed order mp3, mp4, m4a, webm, mkv and the first existing
file wins; when none exists the bare extension-less template path is
accepted if it exists; and when nothing exists at all the handler answers
500 with the expected path and the cache-directory listing. -/
theorem c8_artifact_probe :
    (∀ (ex : String → Bool) (tmpl : String) (pre : List String) (e : String)
        (post : List String),
        possible_extensions = pre ++ e :: post →
        (∀ e2 ∈ pre, ex (tmpl ++ "." ++ e2) = false) →
        ex (tmpl ++ "." ++ e) = true →
        find_downloaded_file ex tmpl = some (tmpl ++ "." ++ e))
    ∧ (∀ (ex : String → Bool) (tmpl : String),
        (∀ e2 ∈ possible_extensions, ex (tmpl ++ "." ++ e2) = false) →
        ex tmpl = true → find_downloaded_file ex tmpl = some tmpl)
    ∧ (∀ (ex : String → Bool) (tmpl : String),
        (∀ e2 ∈ possible_extensions, ex (tmpl ++ "." ++ e2) = false) →
        ex tmpl = false → find_downloaded_file ex tmpl = none)
    ∧ (download_video (.ok ⟨some ("https://youtu.be/abc"), none, none⟩)
          (.ok ⟨some ("T"), none, none, none⟩) (fun _ => false) ["x.part"] ("h")).resp
        = .failureDebug 500 "Download completed but file not found" ("downloads/h")
            ["x.part"] := by
  refine ⟨?_, ?_, ?_, by decide⟩
  · intro ex tmpl pre e post hsplit hpre he
    rw [find_downloaded_file, hsplit,
      find?_append_cons (fun e2 => ex (tmpl ++ "." ++ e2)) pre e post hpre he]
  · intro ex tmpl hall hex
    rw [find_downloaded_file,
      find?_eq_none_of_all (fun e2 => ex (tmpl ++ "." ++ e2)) possible_extensions hall]
    simp [hex]
  · intro ex tmpl hall hex
    rw [find_downloaded_file,
      find?_eq_none_of_all (fun e2 => ex (tmpl ++ "." ++ e2)) possible_extensions hall]
    simp [hex]

theorem c8_witness :
    find_downloaded_file (fun s => s == "t.mp4" || s == "t.webm") ("t")
      = some ("t" ++ "." ++ "mp4")
    ∧ find_downloaded_file (fun s => s == "t") ("t") = some ("t")
    ∧ find_downloaded_file (fun _ => false) ("t") = none :=
  ⟨c8_artifact_probe.1 (fun s => s == "t.mp4" || s == "t.webm") ("t") ["mp3"] ("mp4")
      ["m4a", "webm", "mkv"] (by decide) (by decide) (by decide),
   c8_artifact_probe.2.1 (fun s => s == "t") ("t") (by decide) (by decide),
   c8_artifact_probe.2.2.1 (fun _ => false) ("t") (by decide) (by decide)⟩

/-! ### Claim C9 -/

/-- Claim C9: neither the format nor the quality field is validated.  Every
format value other than the exact string mp3 — the absent-field default mp4
and arbitrary strings alike — takes the video branch (no audio
post-processor) with content type video/mp4, and every quality value other
than 720 and 480 — arbitrary strings included — selects the 360-capped
format selector. -/
theorem c9_no_enum_validation :
    (∀ (tmpl fmt q : String), fmt ≠ "mp3" →
        (build_ydl_opts tmpl fmt q).hasMp3Postprocessor = false
        ∧ (build_ydl_opts tmpl fmt q).format = format_selector q
        ∧ mimetype_for fmt = "video/mp4")
    ∧ (∀ q : String, q ≠ "720" → q ≠ "480" →
        format_selector q = "best[height<=360][ext=mp4]/best[height<=360]/best")
    ∧ (download_video (.ok ⟨some ("https://youtu.be/abc"), none, none⟩)
          (.ok ⟨some ("T"), none, none, none⟩)
          (fun s => s == "downloads/h.mp4") ["h.mp4"] ("h")).resp
        = .fileResp ("downloads/h.mp4") (("T").data ++ ['.', 'm', 'p', '4'])
            ("video/mp4") := by
  refine ⟨?_, ?_, by decide⟩
  · intro tmpl fmt q h
    refine ⟨?_, ?_, ?_⟩ <;> simp [build_ydl_opts, mimetype_for, h]
  · intro q h720 h480
    simp [format_selector, h720, h480]

theorem c9_witness :
    ((build_ydl_opts ("downloads/h") ("avi") ("1080")).hasMp3Postprocessor = false
      ∧ (build_ydl_opts ("downloads/h") ("avi") ("1080")).format = format_selector ("1080")
      ∧ mimetype_for ("avi") = "video/mp4")
    ∧ format_selector ("1080") = "best[height<=360][ext=mp4]/best[height<=360]/best" :=
  ⟨c9_no_enum_validation.1 ("downloads/h") ("avi") ("1080") (by decide),
   c9_no_enum_validation.2.1 ("1080") (by decide) (by decide)⟩

/-! ### Claim C10 -/

/-- Claim C10: when the body is absent or not parseable as a JSON object,
the access to it raises inside the handler's `try`, so both endpoints
answer with the 500 `success:false` envelope (whose error text wraps the
exception), not with the 400 used for a missing or invalid url. -/
theorem c10_bad_body_is_500 :
    ∀ (e : String) (engI engD : Except String EngineInfo)
      (ex : String → Bool) (files : List String) (stem : String),
      get_video_info (.error e) engI
          = ⟨.failure 500 ("Failed to get video info: " ++ e), false⟩
      ∧ download_video (.error e) engD ex files stem
          = ⟨.failure 500 ("Download failed: " ++ e), false, none⟩
      ∧ (get_video_info (.error e) engI).resp.status = 500
      ∧ (download_video (.error e) engD ex files stem).resp.status = 500
      ∧ (get_video_info (.error e) engI).resp.isSuccess = false
      ∧ (download_video (.error e) engD ex files stem).resp.isSuccess = false := by
  intro e engI engD ex files stem
  exact ⟨rfl, rfl, rfl, rfl, rfl, rfl⟩

end YtBackend
